import Mathlib

/-!
# Shallow embedding of the TaskFlow shared-state core

This file embeds, in Lean, the client-side shared-state core of the
task-tracking dashboard: the `TaskList` panel (task collection manager and
filter engine) and the `RecentUsers` panel (log collection manager), both
defined in `src/components/tasks/TaskList.jsx`, together with the
`localStorage`-backed store and the storage-event broadcast channel they
use for cross-component synchronization.

Modelling conventions:
* ISO timestamp strings are modelled as `Int` millisecond values
  (`new Date().toISOString()` at clock reading `now` becomes `now`);
* a value stored under a key is modelled by a small inductive recording
  what the serialized string is: absent (`getItem` returns `null`), a
  JSON array of records (`JSON.stringify` of the collection, invertible
  by `JSON.parse`), the literal string `"null"`, or unparseable bytes;
* React state is gathered in a panel-state structure, and each event
  handler becomes a pure function from panel state (plus the store and a
  log of broadcasts issued) to panel state.
-/

namespace TaskFlow

/-- A task record, as stored under the `tasks` key. -/
structure Task where
  _id : String
  title : String
  description : String
  status : String
  priority : Option String
  dueDate : Option Int
  createdAt : Int
  updatedAt : Option Int
  deriving DecidableEq, Repr

/-- The transient filter criteria of the task panel
(`useState({ status: 'all', search: '' })`). -/
structure FilterSpec where
  status : String
  search : String
  deriving DecidableEq, Repr

/-- A user-activity log record, as stored under the `userLogs` key. -/
structure UserLog where
  id : String
  userId : String
  username : String
  role : String
  action : String
  loginTime : Int
  logoutTime : Option Int
  ipAddress : String
  tokenName : String
  deriving DecidableEq, Repr

/-- JavaScript `String.prototype.toLowerCase`, character by character. -/
def jsToLower (s : String) : String :=
  String.mk (s.toList.map Char.toLower)

/-- Drop leading whitespace characters. -/
def dropLeadingWs : List Char → List Char
  | [] => []
  | c :: cs => if c.isWhitespace then dropLeadingWs cs else c :: cs

/-- JavaScript `String.prototype.trim`: drop leading and trailing
whitespace. -/
def jsTrim (s : String) : String :=
  String.mk ((dropLeadingWs ((dropLeadingWs s.toList).reverse)).reverse)

/-- `needle.isPrefixOf` at some suffix of the haystack: the model of
JavaScript `String.prototype.includes` on the character sequence. -/
def charsContain (needle : List Char) : List Char → Bool
  | [] => needle.isEmpty
  | c :: cs => needle.isPrefixOf (c :: cs) || charsContain needle cs

/-- `s.includes(sub)` from JavaScript: `sub` occurs contiguously in `s`. -/
def strContains (s sub : String) : Bool :=
  charsContain sub.toList s.toList

/-- The pure core of `applyFilters(taskList, filterSettings)` from
`TaskList.jsx` (the source function ends with `setFilteredTasks(result)`;
here we return `result`). Status filter first, then search filter, each
skipped when its condition is falsy. -/
def applyFilters (taskList : List Task) (filterSettings : FilterSpec) : List Task :=
  let result := taskList
  let result :=
    if filterSettings.status != "all" then
      result.filter (fun task => task.status == filterSettings.status)
    else result
  let result :=
    if jsTrim filterSettings.search != "" then
      let searchTerm := jsTrim (jsToLower filterSettings.search)
      result.filter (fun task =>
        strContains (jsToLower task.title) searchTerm ||
        strContains (jsToLower task.description) searchTerm)
    else result
  result

/-- The record-level pass predicate the spec describes for the filter
engine: both filters conjunctively — status matches unless the spec says
`all`, and the normalized search term occurs in the lower-cased title or
description unless the trimmed search is empty. -/
def passesFilters (filterSettings : FilterSpec) (task : Task) : Bool :=
  (filterSettings.status == "all" || task.status == filterSettings.status) &&
  (jsTrim filterSettings.search == "" ||
    (strContains (jsToLower task.title) (jsTrim (jsToLower filterSettings.search)) ||
     strContains (jsToLower task.description) (jsTrim (jsToLower filterSettings.search))))

theorem applyFilters_eq_filter (C : List Task) (S : FilterSpec) :
    applyFilters C S = C.filter (passesFilters S) := by
  unfold applyFilters
  by_cases h1 : S.status = "all" <;> by_cases h2 : jsTrim S.search = "" <;>
    simp only [h1, h2, bne_self_eq_false, bne_iff_ne, ne_eq, not_false_iff,
      if_true, if_false, if_neg, if_pos, not_true, List.filter_filter]
  · exact (List.filter_eq_self.mpr (fun a _ => by simp [passesFilters, h1, h2])).symm
  · exact List.filter_congr (fun a _ => by
      simp [passesFilters, h1, beq_eq_false_iff_ne.mpr h2])
  · exact List.filter_congr (fun a _ => by
      simp [passesFilters, h2, beq_eq_false_iff_ne.mpr h1])
  · exact List.filter_congr (fun a _ => by
      simp [passesFilters, beq_eq_false_iff_ne.mpr h1, beq_eq_false_iff_ne.mpr h2,
        Bool.and_comm])

/-- What the `localStorage` string under the `tasks` key is:
the key may be missing (`getItem` returns `null`), hold the
`JSON.stringify` image of a task array (which `JSON.parse` inverts), or
hold bytes on which `JSON.parse` throws. -/
inductive StoredTasks where
  | absent
  | tasksJson (ts : List Task)
  | unparseable
  deriving DecidableEq, Repr

/-- Re-reading the `tasks` key and parsing it: `JSON.parse` of the
stringified collection returns the collection; otherwise no collection. -/
def readStoredTasks : StoredTasks → Option (List Task)
  | StoredTasks.tasksJson ts => some ts
  | _ => none

/-- The edit form state (`useState({ title: '', description: '' })`). -/
structure EditForm where
  title : String
  description : String
  deriving DecidableEq, Repr

/-- The React state of one mounted `TaskList` panel, together with the
`tasks` key of the store it reads and writes and the log of `storage`
events it has dispatched (`newValue` payloads, most recent last). -/
structure TaskPanelState where
  tasks : List Task
  filteredTasks : List Task
  loading : Bool
  error : Option String
  editingTask : Option String
  editForm : EditForm
  filters : FilterSpec
  store : StoredTasks
  broadcasts : List (List Task)
  deriving DecidableEq, Repr

/-- The initial filter spec of the panel (`{ status: 'all', search: '' }`). -/
def initFilters : FilterSpec := { status := "all", search := "" }

/-- The panel state at first render, before the mount effect runs, with a
given store content. -/
def initialTaskPanel (store : StoredTasks) : TaskPanelState :=
  { tasks := [], filteredTasks := [], loading := true, error := none,
    editingTask := none, editForm := { title := "", description := "" },
    filters := initFilters, store := store, broadcasts := [] }

/-- The mock seed tasks materialized by `loadTasks` when the `tasks` key
is absent. `now` is the clock reading (`Date.now()`); each
`new Date(...).toISOString()` becomes the corresponding `Int` offset. -/
def mockTasks (now : Int) : List Task :=
  [ { _id := "1",
      title := "Complete project documentation",
      description := "Write comprehensive documentation for the TaskFlow project",
      status := "incomplete", priority := some "high",
      dueDate := some now, createdAt := now, updatedAt := none },
    { _id := "2",
      title := "Fix navigation bug",
      description := "Address the issue with sidebar navigation on mobile devices",
      status := "complete", priority := some "medium",
      dueDate := some now, createdAt := now - 86400000, updatedAt := none },
    { _id := "3",
      title := "Implement user feedback",
      description := "Add the user feedback form to the dashboard",
      status := "incomplete", priority := some "low",
      dueDate := some (now + 86400000), createdAt := now - 172800000,
      updatedAt := none },
    { _id := "4",
      title := "Update dependencies",
      description := "Update all npm packages to their latest versions",
      status := "incomplete", priority := some "medium",
      dueDate := some (now + 172800000), createdAt := now - 259200000,
      updatedAt := none } ]

/-- `loadTasks` from the mount effect of `TaskList.jsx`: read the `tasks`
key; if a string is present, parse and use it (a parse failure is caught
and sets the error message, leaving tasks and store untouched); if the
key is absent, materialize `mockTasks`, write them through to the store,
and use them. `finally` clears the loading flag in every branch. -/
def loadTasks (st : TaskPanelState) (now : Int) : TaskPanelState :=
  match st.store with
  | StoredTasks.tasksJson parsedTasks =>
      { st with tasks := parsedTasks,
                filteredTasks := applyFilters parsedTasks st.filters,
                error := none, loading := false }
  | StoredTasks.unparseable =>
      { st with error := some "Failed to load tasks. Please try again later.",
                loading := false }
  | StoredTasks.absent =>
      { st with tasks := mockTasks now,
                filteredTasks := applyFilters (mockTasks now) st.filters,
                store := StoredTasks.tasksJson (mockTasks now),
                error := none, loading := false }

/-- `handleStorageChange` from the mount effect of `TaskList.jsx`.
The listener is registered once (empty dependency array), so the filter
spec it closes over is the one of the render in which the effect ran —
it is passed here as the separate argument `captured`, distinct from the
evolving `st.filters`. A `null` or empty `newValue` falls back to the
string `'[]'` (`e.newValue || '[]'`), hence parses to the empty
collection; unparseable bytes are caught and leave the state unchanged.
The handler never dispatches a storage event itself. -/
def handleStorageChange (captured : FilterSpec) (st : TaskPanelState)
    (key : String) (newValue : StoredTasks) : TaskPanelState :=
  if key == "tasks" then
    match newValue with
    | StoredTasks.absent =>
        { st with tasks := [], filteredTasks := applyFilters [] captured }
    | StoredTasks.tasksJson updatedTasks =>
        { st with tasks := updatedTasks,
                  filteredTasks := applyFilters updatedTasks captured }
    | StoredTasks.unparseable => st
  else st

/-- `handleFilterChange(filterType, value)`: update the named filter
field and reapply the filter engine to the current projection with the
new spec. Only `status` and `search` are ever passed by the UI. -/
def handleFilterChange (st : TaskPanelState) (filterType value : String) :
    TaskPanelState :=
  let newFilters :=
    if filterType == "status" then { st.filters with status := value }
    else if filterType == "search" then { st.filters with search := value }
    else st.filters
  { st with filters := newFilters,
            filteredTasks := applyFilters st.tasks newFilters }

/-- The per-record body of the `tasks.map` in `handleStatusChange`: flip
the status of the record matching `taskId` and stamp `updatedAt` with the
current clock reading; leave every other record untouched. -/
def toggleOne (taskId : String) (now : Int) (task : Task) : Task :=
  if task._id == taskId then
    { task with
        status := if task.status == "complete" then "incomplete" else "complete",
        updatedAt := some now }
  else task

/-- The collection-level transform of `handleStatusChange`. -/
def toggleTasks (tasks : List Task) (taskId : String) (now : Int) : List Task :=
  tasks.map (toggleOne taskId now)

/-- `handleStatusChange(taskId)`: toggle in memory, reapply the current
filters, write the updated collection through to `localStorage`, and
dispatch a `storage` event carrying the updated collection. -/
def handleStatusChange (st : TaskPanelState) (taskId : String) (now : Int) :
    TaskPanelState :=
  let updatedTasks := toggleTasks st.tasks taskId now
  { st with tasks := updatedTasks,
            filteredTasks := applyFilters updatedTasks st.filters,
            store := StoredTasks.tasksJson updatedTasks,
            broadcasts := st.broadcasts ++ [updatedTasks] }

/-- `saveTask(taskId)`: an empty trimmed title is rejected up front
(`alert` and `return` — no state change at all, edit mode stays);
otherwise the matching record takes the form's title and description and
a fresh `updatedAt`, edit mode ends, the collection is written through,
and a `storage` event is dispatched. -/
def saveTask (st : TaskPanelState) (taskId : String) (now : Int) :
    TaskPanelState :=
  if jsTrim st.editForm.title == "" then st
  else
    let updatedTasks := st.tasks.map fun task =>
      if task._id == taskId then
        { task with title := st.editForm.title,
                    description := st.editForm.description,
                    updatedAt := some now }
      else task
    { st with tasks := updatedTasks,
              filteredTasks := applyFilters updatedTasks st.filters,
              editingTask := none,
              store := StoredTasks.tasksJson updatedTasks,
              broadcasts := st.broadcasts ++ [updatedTasks] }

/-- What the `localStorage` string under the `userLogs` key is. The
load path tests the raw string (`storedLogs && storedLogs !== 'null' &&
storedLogs !== '[]'`), so the string-level sentinels matter: the key may
be missing, hold the four-character string `"null"`, hold the
`JSON.stringify` image of a log array (which is the string `"[]"`
exactly when the array is empty), or hold bytes on which `JSON.parse`
throws (such bytes are by definition neither `"null"` nor `"[]"`, both
of which parse). -/
inductive StoredLogs where
  | absent
  | strNull
  | jsonArr (ls : List UserLog)
  | unparseable
  deriving DecidableEq, Repr

/-- The React state of one mounted `RecentUsers` panel together with the
`userLogs` key of the store. -/
structure LogPanelState where
  userLogs : List UserLog
  loading : Bool
  deleteConfirm : Option String
  store : StoredLogs
  deriving DecidableEq, Repr

/-- The panel state at first render, before the mount effect runs. -/
def initialLogPanel (store : StoredLogs) : LogPanelState :=
  { userLogs := [], loading := true, deleteConfirm := none, store := store }

/-- The mock seed logs of `RecentUsers` (used by both `loadUserLogs` and
`resetLogs`); `now` is the clock reading. -/
def mockLogs (now : Int) : List UserLog :=
  [ { id := "1", userId := "admin-123", username := "admin@example.com",
      role := "admin", action := "login", loginTime := now - 3600000,
      logoutTime := none, ipAddress := "192.168.1.1",
      tokenName := "eyJhbGciOi..." },
    { id := "2", userId := "user-456", username := "user@example.com",
      role := "user", action := "login", loginTime := now - 7200000,
      logoutTime := some (now - 3600000), ipAddress := "192.168.1.2",
      tokenName := "eyJhbGciOi..." },
    { id := "3", userId := "user-789", username := "test@example.com",
      role := "user", action := "login", loginTime := now - 86400000,
      logoutTime := some (now - 82800000), ipAddress := "192.168.1.3",
      tokenName := "eyJhbGciOi..." } ]

/-- The comparator of `loadUserLogs`:
`(a, b) => new Date(b.loginTime) - new Date(a.loginTime)` sorts by
`loginTime` descending; `a` may stay before `b` iff the comparator is
non-positive, i.e. `b.loginTime ≤ a.loginTime`. -/
def logBefore (a b : UserLog) : Bool := b.loginTime ≤ a.loginTime

/-- `parsedLogs.sort(comparator)`: a stable comparison sort, modelled by
the stable `List.mergeSort`. -/
def sortLogsDesc (ls : List UserLog) : List UserLog :=
  ls.mergeSort logBefore

/-- `loadUserLogs` from the mount effect of `RecentUsers`: if the stored
string is truthy and is neither `'null'` nor `'[]'`, parse it and set
the projection to the sorted result (parse failure is caught and only
clears the loading flag); otherwise seed the three mock logs, write them
through, and use them unsorted as produced. -/
def loadUserLogs (st : LogPanelState) (now : Int) : LogPanelState :=
  match st.store with
  | StoredLogs.jsonArr parsedLogs =>
      if parsedLogs.isEmpty then
        { st with userLogs := mockLogs now,
                  store := StoredLogs.jsonArr (mockLogs now), loading := false }
      else
        { st with userLogs := sortLogsDesc parsedLogs, loading := false }
  | StoredLogs.unparseable => { st with loading := false }
  | StoredLogs.absent =>
      { st with userLogs := mockLogs now,
                store := StoredLogs.jsonArr (mockLogs now), loading := false }
  | StoredLogs.strNull =>
      { st with userLogs := mockLogs now,
                store := StoredLogs.jsonArr (mockLogs now), loading := false }

/-- `handleDelete(logId)` from `RecentUsers`: if `logId` is not the
pending confirmation, only mark it pending; on a confirming second call
remove every record with that id, write the reduced collection through,
and clear the pending marker. -/
def handleDelete (st : LogPanelState) (logId : String) : LogPanelState :=
  if st.deleteConfirm ≠ some logId then
    { st with deleteConfirm := some logId }
  else
    let updatedLogs := st.userLogs.filter (fun log => log.id != logId)
    { st with userLogs := updatedLogs,
              store := StoredLogs.jsonArr updatedLogs,
              deleteConfirm := none }

/-- `cancelDelete()`: clear the pending marker, nothing else. -/
def cancelDelete (st : LogPanelState) : LogPanelState :=
  { st with deleteConfirm := none }

/-- Descending sortedness by `loginTime`: every record's `loginTime` is
at least the `loginTime` of every later record. -/
def logsSortedDesc (ls : List UserLog) : Prop :=
  List.Pairwise (fun a b => b.loginTime ≤ a.loginTime) ls

/-! ## Concrete inputs used by witnesses and the C1 evaluation -/

/-- A task used by the C1 evaluation: incomplete, so the current
`status = "complete"` filter would exclude it. -/
def cexTask : Task :=
  { _id := "7", title := "Water plants", description := "",
    status := "incomplete", priority := none, dueDate := none,
    createdAt := 0, updatedAt := none }

/-- The task panel right after mounting over a store holding an empty
collection. -/
def stalePanel0 : TaskPanelState :=
  loadTasks (initialTaskPanel (StoredTasks.tasksJson [])) 0

/-- ... after the user sets the status filter to `complete`. -/
def stalePanel1 : TaskPanelState :=
  handleFilterChange stalePanel0 "status" "complete"

/-- ... after a storage event for `tasks` delivers `[cexTask]`. The
listener registered at mount closed over the first-render filter spec,
so its captured spec is `initFilters`, not `stalePanel1.filters`. -/
def stalePanel2 : TaskPanelState :=
  handleStorageChange initFilters stalePanel1 "tasks"
    (StoredTasks.tasksJson [cexTask])

/-! ## Claim theorems -/

/-- C2: for every task collection and filter spec, the filter engine
retains exactly the records that pass the status filter and the search
filter conjunctively, preserving the input order: `applyFilters` is the
single `List.filter` by the conjunctive record predicate. -/
theorem applyFilters_retains_conjunctive_in_order (C : List Task) (S : FilterSpec) :
    applyFilters C S = C.filter (passesFilters S) :=
  applyFilters_eq_filter C S

/-- C3: applying the filter engine twice with the same spec gives the
same result as applying it once. -/
theorem applyFilters_idempotent (C : List Task) (S : FilterSpec) :
    applyFilters (applyFilters C S) S = applyFilters C S := by
  rw [applyFilters_eq_filter C S, applyFilters_eq_filter, List.filter_filter]
  exact List.filter_congr (fun a _ => by simp)

/-- C10: a storage event for key `tasks` whose `newValue` is null or
absent is not ignored and raises no error: the projection becomes the
empty collection (the missing value is read as `'[]'`) and the filtered
view becomes empty, with every other state field unchanged. -/
theorem handleStorageChange_null_newValue (captured : FilterSpec)
    (st : TaskPanelState) :
    handleStorageChange captured st "tasks" StoredTasks.absent =
      { st with tasks := [], filteredTasks := [] } := by
  simp [handleStorageChange, applyFilters]

/-- C7: loading with the `tasks` key absent materializes exactly the 4
deterministic seed records, writes them to the store before use, and an
immediate re-read of the key returns the same 4 records. -/
theorem loadTasks_seeds_when_absent (st : TaskPanelState) (now : Int)
    (h : st.store = StoredTasks.absent) :
    (loadTasks st now).tasks = mockTasks now ∧
    (mockTasks now).length = 4 ∧
    (mockTasks now).map Task._id = ["1", "2", "3", "4"] ∧
    (loadTasks st now).store = StoredTasks.tasksJson (mockTasks now) ∧
    readStoredTasks (loadTasks st now).store = some (mockTasks now) := by
  simp [loadTasks, h, mockTasks, readStoredTasks]

theorem loadTasks_seeds_when_absent_witness :
    (loadTasks (initialTaskPanel StoredTasks.absent) 1000).tasks = mockTasks 1000 ∧
    (mockTasks 1000).length = 4 ∧
    (mockTasks 1000).map Task._id = ["1", "2", "3", "4"] ∧
    (loadTasks (initialTaskPanel StoredTasks.absent) 1000).store =
      StoredTasks.tasksJson (mockTasks 1000) ∧
    readStoredTasks (loadTasks (initialTaskPanel StoredTasks.absent) 1000).store =
      some (mockTasks 1000) :=
  loadTasks_seeds_when_absent (initialTaskPanel StoredTasks.absent) 1000 rfl

/-- C8: loading when the `tasks` key holds unparseable bytes transitions
the panel to the error state with the user-facing message and changes
nothing else: in particular the stored value is left untouched (no
reseed, no write) and no broadcast is issued. -/
theorem loadTasks_unparseable_error (st : TaskPanelState) (now : Int)
    (h : st.store = StoredTasks.unparseable) :
    loadTasks st now =
      { st with error := some "Failed to load tasks. Please try again later.",
                loading := false } := by
  simp [loadTasks, h]

theorem loadTasks_unparseable_error_witness :
    loadTasks (initialTaskPanel StoredTasks.unparseable) 0 =
      { initialTaskPanel StoredTasks.unparseable with
          error := some "Failed to load tasks. Please try again later.",
          loading := false } :=
  loadTasks_unparseable_error (initialTaskPanel StoredTasks.unparseable) 0 rfl

/-- C6: saving with a title whose trimmed form is empty aborts with no
state change at all: tasks, filtered view, stored value, broadcast log
and edit mode are exactly as before. -/
theorem saveTask_empty_title_noop (st : TaskPanelState) (taskId : String)
    (now : Int) (h : jsTrim st.editForm.title = "") :
    saveTask st taskId now = st := by
  simp [saveTask, h]

/-- A panel in edit mode for task `1` with a whitespace-only title in
the form. -/
def editingPanel : TaskPanelState :=
  { initialTaskPanel (StoredTasks.tasksJson (mockTasks 0)) with
      editingTask := some "1",
      editForm := { title := "   ", description := "x" } }

theorem saveTask_empty_title_noop_witness :
    saveTask editingPanel "1" 5 = editingPanel :=
  saveTask_empty_title_noop editingPanel "1" 5 (by decide)

/-- A helper for the not-found branch of the toggle: when no record has
the given id, the map leaves the collection unchanged. -/
theorem toggleTasks_not_found (tasks : List Task) (taskId : String) (now : Int)
    (hall : ∀ t ∈ tasks, t._id ≠ taskId) : toggleTasks tasks taskId now = tasks := by
  unfold toggleTasks
  have h1 : ∀ t ∈ tasks, toggleOne taskId now t = t := fun t ht => by
    simp [toggleOne, beq_eq_false_iff_ne.mpr (hall t ht)]
  calc tasks.map (toggleOne taskId now) = tasks.map (fun t => t) :=
        List.map_congr_left h1
    _ = tasks := List.map_id' tasks

/-- C4: toggling by an id present in the collection flips that record's
status between `complete` and `incomplete` and stamps `updatedAt` with
the current clock reading — strictly greater than the previous stamp
whenever the clock moved forward — leaving its other fields in place;
toggling by an id no record carries returns the collection unchanged. -/
theorem handleStatusChange_toggle_spec (tasks : List Task) (taskId : String)
    (now : Int) :
    ((∀ t ∈ tasks, t._id ≠ taskId) → toggleTasks tasks taskId now = tasks) ∧
    (∀ i : Nat, ∀ old : Task, tasks[i]? = some old → old._id = taskId →
      ∃ newT : Task, (toggleTasks tasks taskId now)[i]? = some newT ∧
        newT.status =
          (if old.status == "complete" then "incomplete" else "complete") ∧
        newT.updatedAt = some now ∧
        newT._id = old._id ∧ newT.title = old.title ∧
        newT.description = old.description ∧
        (∀ u : Int, old.updatedAt = some u → u < now →
          ∃ v : Int, newT.updatedAt = some v ∧ u < v)) := by
  constructor
  · exact toggleTasks_not_found tasks taskId now
  · intro i old hio hid
    refine ⟨toggleOne taskId now old, ?_, ?_, ?_, ?_, ?_, ?_, ?_⟩
    · rw [toggleTasks, List.getElem?_map, hio, Option.map_some']
    · simp [toggleOne, hid]
    · simp [toggleOne, hid]
    · simp [toggleOne, hid]
    · simp [toggleOne, hid]
    · simp [toggleOne, hid]
    · intro u _ hun
      exact ⟨now, by simp [toggleOne, hid], hun⟩

/-- A complete task with an earlier `updatedAt` stamp, toggled in the
witness. -/
def exTask : Task :=
  { _id := "1", title := "t", description := "d", status := "complete",
    priority := none, dueDate := none, createdAt := 0, updatedAt := some 5 }

theorem handleStatusChange_toggle_spec_witness :
    toggleTasks [exTask] "9" 10 = [exTask] ∧
    (∃ newT : Task, (toggleTasks [exTask] "1" 10)[0]? = some newT ∧
      newT.status = "incomplete" ∧ newT.updatedAt = some 10 ∧
      ∃ v : Int, newT.updatedAt = some v ∧ (5 : Int) < v) := by
  refine ⟨(handleStatusChange_toggle_spec [exTask] "9" 10).1 (by decide), ?_⟩
  obtain ⟨newT, h1, h2, h3, _, _, _, h7⟩ :=
    (handleStatusChange_toggle_spec [exTask] "1" 10).2 0 exTask rfl rfl
  exact ⟨newT, h1, by simpa using h2, h3, h7 5 rfl (by norm_num)⟩

/-- C5: the two-phase delete of the log panel. A call whose id is not
the pending confirmation only re-targets the pending marker and removes
nothing; in particular `handleDelete "2"` then `handleDelete "3"`
deletes nothing. Two consecutive calls with the same id remove exactly
the records with that id, write the reduced collection through to the
store, and clear the marker. -/
theorem handleDelete_two_phase (st : LogPanelState) (logId other : String)
    (h : st.deleteConfirm ≠ some logId) :
    handleDelete st logId = { st with deleteConfirm := some logId } ∧
    (other ≠ logId →
      (handleDelete (handleDelete st logId) other).userLogs = st.userLogs ∧
      (handleDelete (handleDelete st logId) other).store = st.store ∧
      (handleDelete (handleDelete st logId) other).deleteConfirm = some other) ∧
    (handleDelete (handleDelete st logId) logId =
      { st with
          userLogs := st.userLogs.filter (fun log => log.id != logId),
          store := StoredLogs.jsonArr (st.userLogs.filter (fun log => log.id != logId)),
          deleteConfirm := none }) ∧
    (∀ l : UserLog,
      l ∈ (handleDelete (handleDelete st logId) logId).userLogs ↔
        (l ∈ st.userLogs ∧ l.id ≠ logId)) := by
  have h1 : handleDelete st logId = { st with deleteConfirm := some logId } := by
    unfold handleDelete
    rw [if_pos h]
  have h2 : handleDelete (handleDelete st logId) logId =
      { st with
          userLogs := st.userLogs.filter (fun log => log.id != logId),
          store := StoredLogs.jsonArr (st.userLogs.filter (fun log => log.id != logId)),
          deleteConfirm := none } := by
    rw [h1]
    unfold handleDelete
    simp
  refine ⟨h1, ?_, h2, ?_⟩
  · intro hne
    rw [h1]
    unfold handleDelete
    rw [if_pos (by simpa using (Ne.symm hne))]
    exact ⟨rfl, rfl, rfl⟩
  · intro l
    rw [h2]
    simp [List.mem_filter]

/-- A log panel holding the three seed logs with no pending deletion. -/
def exLogSt : LogPanelState :=
  { userLogs := mockLogs 100000000, loading := false,
    deleteConfirm := none, store := StoredLogs.jsonArr (mockLogs 100000000) }

theorem handleDelete_two_phase_witness :
    handleDelete exLogSt "2" = { exLogSt with deleteConfirm := some "2" } ∧
    (handleDelete (handleDelete exLogSt "2") "3").userLogs = exLogSt.userLogs ∧
    (handleDelete (handleDelete exLogSt "3") "3").userLogs =
      exLogSt.userLogs.filter (fun log => log.id != "3") := by
  have h2 := handleDelete_two_phase exLogSt "2" "3" (by decide)
  have h3 := handleDelete_two_phase exLogSt "3" "" (by decide)
  exact ⟨h2.1, (h2.2.1 (by decide)).1, by rw [h3.2.2.1]⟩

/-- The three seed logs are already in descending `loginTime` order
(one hour, two hours and one day ago). -/
theorem mockLogs_sorted (now : Int) : logsSortedDesc (mockLogs now) := by
  unfold logsSortedDesc mockLogs
  simp [List.pairwise_cons]
  omega

/-- The sort pass of `loadUserLogs` produces a collection in descending
`loginTime` order. -/
theorem sortLogsDesc_sorted (ls : List UserLog) :
    logsSortedDesc (sortLogsDesc ls) := by
  have h := @List.sorted_mergeSort UserLog logBefore
    (fun a b c h1 h2 => by
      simp only [logBefore, decide_eq_true_eq] at *; omega)
    (fun a b => by
      simp only [logBefore, Bool.or_eq_true, decide_eq_true_eq]; omega)
    ls
  exact h.imp (fun hab => by simpa [logBefore] using hab)

/-- C9: after the log panel's load completes having parsed a stored
collection or seeded the demo records (i.e. the stored bytes were not
unparseable), the in-memory projection is sorted by `loginTime`
descending. -/
theorem loadUserLogs_sorted (st : LogPanelState) (now : Int)
    (h : st.store ≠ StoredLogs.unparseable) :
    logsSortedDesc (loadUserLogs st now).userLogs := by
  unfold loadUserLogs
  cases hst : st.store with
  | absent => exact mockLogs_sorted now
  | strNull => exact mockLogs_sorted now
  | unparseable => exact absurd hst h
  | jsonArr parsedLogs =>
      by_cases he : parsedLogs.isEmpty <;> simp only [he, if_true, if_false]
      · exact mockLogs_sorted now
      · exact sortLogsDesc_sorted parsedLogs

/-- A stored `userLogs` collection that is out of order: ids `a`, `b`
with `loginTime` 10 and 20. -/
def unsortedLogs : List UserLog :=
  [ { id := "a", userId := "u1", username := "a@example.com", role := "user",
      action := "login", loginTime := 10, logoutTime := none,
      ipAddress := "10.0.0.1", tokenName := "tok" },
    { id := "b", userId := "u2", username := "b@example.com", role := "user",
      action := "login", loginTime := 20, logoutTime := none,
      ipAddress := "10.0.0.2", tokenName := "tok" } ]

theorem loadUserLogs_sorted_witness :
    logsSortedDesc
      (loadUserLogs (initialLogPanel (StoredLogs.jsonArr unsortedLogs)) 0).userLogs :=
  loadUserLogs_sorted (initialLogPanel (StoredLogs.jsonArr unsortedLogs)) 0
    (by decide)

/-- C1 fails on the code: the storage listener applies the filter spec
captured when the mount effect registered it, not the spec currently
held by the panel. In the run below the panel mounts with the neutral
spec, the user then filters by `complete`, and a storage event delivers
a single incomplete task: the handler leaves the incomplete task in the
filtered view, while reapplying the panel's current spec would have
produced the empty view. -/
theorem handleStorageChange_stale_filters :
    stalePanel1.filters = { status := "complete", search := "" } ∧
    stalePanel2.tasks = [cexTask] ∧
    stalePanel2.filteredTasks = [cexTask] ∧
    applyFilters stalePanel2.tasks stalePanel2.filters = [] ∧
    stalePanel2.filteredTasks ≠ applyFilters stalePanel2.tasks stalePanel2.filters := by
  decide

end TaskFlow
